import Mathlib

/-
Verification of the two command-line tools of this repository:
  - src/browser_tools/azure_tools/azure_automation.py (cloud-CLI wrapper)
  - src/browser_tools/browser_tool.py (headless-browser wrapper)

The Python code is shallowly embedded as Lean definitions.  Effects are
made explicit:
  - printed lines and spawned external commands are accumulated in a
    state record, threaded by a small state-plus-exceptions monad `PyM`;
  - the behaviour of the external `az` process is an oracle
    (`AzEnv.proc`), and the behaviour of `json.loads` is an oracle
    (`AzEnv.decode`), so that theorems quantify over every possible
    external behaviour;
  - a raised-and-uncaught Python exception is `Except.error`.
Python values decoded from JSON are modelled by the inductive `PyVal`.
-/

/-- State-passing computation with Python-style exceptions: a `PyM σ α`
consumes a state `σ` and produces either a value or an uncaught
exception message, together with the final state (output printed before
an exception is retained, as in a real process). -/
structure PyM (σ : Type) (α : Type) where
  run : σ → Except String α × σ

instance : Monad (PyM σ) where
  pure a := ⟨fun s => (Except.ok a, s)⟩
  bind x f := ⟨fun s =>
    match x.run s with
    | (Except.ok a, s2) => (f a).run s2
    | (Except.error e, s2) => (Except.error e, s2)⟩

/-- Raise a Python exception carrying message `e`. -/
def PyM.throwExc (e : String) : PyM σ α := ⟨fun s => (Except.error e, s)⟩

/-- Update the effect state. -/
def PyM.modifyS (f : σ → σ) : PyM σ Unit := ⟨fun s => (Except.ok (), f s)⟩

/-- Lift a pure fallible computation into the monad. -/
def liftE : Except String α → PyM σ α
  | Except.ok a => pure a
  | Except.error e => PyM.throwExc e

theorem PyM.run_bind (x : PyM σ α) (f : α → PyM σ β) (s : σ) :
    (x >>= f).run s = match x.run s with
      | (Except.ok a, s2) => (f a).run s2
      | (Except.error e, s2) => (Except.error e, s2) := rfl

theorem PyM.run_pure (a : α) (s : σ) :
    (pure a : PyM σ α).run s = (Except.ok a, s) := rfl

theorem PyM.run_throwExc (e : String) (s : σ) :
    (PyM.throwExc e : PyM σ α).run s = (Except.error e, s) := rfl

theorem PyM.run_modifyS (f : σ → σ) (s : σ) :
    (PyM.modifyS f : PyM σ Unit).run s = (Except.ok (), f s) := rfl

theorem run_liftE_ok (a : α) (s : σ) :
    (liftE (Except.ok a) : PyM σ α).run s = (Except.ok a, s) := rfl

theorem run_liftE_error (e : String) (s : σ) :
    (liftE (Except.error e) : PyM σ α).run s = (Except.error e, s) := rfl

/-- A Python `for` loop over a list: run the body on each element in
order (stopping at an uncaught exception). -/
def forList : List α → (α → PyM σ Unit) → PyM σ Unit
  | [], _ => pure ()
  | x :: xs, f => do
      f x
      forList xs f

theorem run_forList_nil (f : α → PyM σ Unit) (s : σ) :
    (forList [] f).run s = (Except.ok (), s) := rfl

theorem forList_cons (x : α) (xs : List α) (f : α → PyM σ Unit) :
    forList (x :: xs) f = f x >>= fun _ => forList xs f := rfl

/-- A Python value, as produced by `json.loads` (or `None`). -/
inductive PyVal where
  | str : String → PyVal
  | int : Int → PyVal
  | bool : Bool → PyVal
  | none : PyVal
  | list : List PyVal → PyVal
  | dict : List (String × PyVal) → PyVal

/-- Python truthiness (`if v:`). -/
def truthy : PyVal → Bool
  | PyVal.str s => s != ""
  | PyVal.int n => n != 0
  | PyVal.bool b => b
  | PyVal.none => false
  | PyVal.list xs => !xs.isEmpty
  | PyVal.dict kvs => !kvs.isEmpty

mutual

/-- Python `repr` of a value (string escaping inside containers is not
modelled; no theorem depends on container rendering). -/
def pyRepr : PyVal → String
  | PyVal.str s => "\x27" ++ s ++ "\x27"
  | PyVal.int n => toString n
  | PyVal.bool b => if b then "True" else "False"
  | PyVal.none => "None"
  | PyVal.list xs => "[" ++ pyReprList xs ++ "]"
  | PyVal.dict kvs => "\x7b" ++ pyReprDict kvs ++ "\x7d"

def pyReprList : List PyVal → String
  | [] => ""
  | [x] => pyRepr x
  | x :: y :: xs => pyRepr x ++ ", " ++ pyReprList (y :: xs)

def pyReprDict : List (String × PyVal) → String
  | [] => ""
  | [kv] => "\x27" ++ kv.1 ++ "\x27: " ++ pyRepr kv.2
  | kv :: kv2 :: xs => "\x27" ++ kv.1 ++ "\x27: " ++ pyRepr kv.2 ++ ", " ++ pyReprDict (kv2 :: xs)

end

/-- Python `str()`, as applied by f-string interpolation. -/
def pyStr : PyVal → String
  | PyVal.str s => s
  | v => pyRepr v

/-- Python `v[k]` on a decoded value: `KeyError` when the key is absent,
`TypeError` when the value is not a dict (lists are only ever indexed by
string keys in this code base). -/
def getItem (v : PyVal) (k : String) : Except String PyVal :=
  match v with
  | PyVal.dict kvs =>
      match kvs.lookup k with
      | some x => Except.ok x
      | Option.none => Except.error ("KeyError: " ++ k)
  | _ => Except.error ("TypeError: object is not subscriptable: " ++ k)

/-- Python `v.get(k, dflt)`: raises `AttributeError` when `v` is not a
dict. -/
def pyGet (v : PyVal) (k : String) (dflt : PyVal) : Except String PyVal :=
  match v with
  | PyVal.dict kvs =>
      match kvs.lookup k with
      | some x => Except.ok x
      | Option.none => Except.ok dflt
  | _ => Except.error ("AttributeError: object has no attribute get")

/-- Python `for x in v`: lists yield their elements, dicts their keys,
strings their characters; anything else raises `TypeError`. -/
def pyIter : PyVal → Except String (List PyVal)
  | PyVal.list xs => Except.ok xs
  | PyVal.dict kvs => Except.ok (kvs.map (fun kv => PyVal.str kv.1))
  | PyVal.str s => Except.ok (s.data.map (fun c => PyVal.str (String.mk [c])))
  | _ => Except.error "TypeError: object is not iterable"

/-- Python string slice `s[:n]` (by characters, as in Python). -/
def pySliceStr (s : String) (n : Nat) : String := String.mk (s.data.take n)

/-- Python slice `v[:n]` on a decoded value: strings and lists are
sliceable, anything else raises `TypeError`. -/
def pySlice (v : PyVal) (n : Nat) : Except String PyVal :=
  match v with
  | PyVal.str s => Except.ok (PyVal.str (pySliceStr s n))
  | PyVal.list xs => Except.ok (PyVal.list (xs.take n))
  | _ => Except.error "TypeError: object is not sliceable"

/-- Python `v == lit` for a string literal `lit`: `False` (no exception)
when `v` is not a string. -/
def pyEqStr (v : PyVal) (lit : String) : Bool :=
  match v with
  | PyVal.str t => t == lit
  | _ => false

/-- A character stripped by Python `str.strip()` (ASCII whitespace). -/
def isPySpace (c : Char) : Bool :=
  c = ' ' || c = '\t' || c = '\n' || c = '\r' || c = '\x0b' || c = '\x0c'

/-- Python `s.strip()`. -/
def pyStrip (s : String) : String :=
  String.mk (((s.data.dropWhile isPySpace).reverse.dropWhile isPySpace).reverse)

/-- Python `s.lower()` (by characters). -/
def pyLower (s : String) : String := String.mk (s.data.map Char.toLower)

/-
==============================================================
Model of src/browser_tools/azure_tools/azure_automation.py
==============================================================
-/

/-- Outcome of one `subprocess.run(cmd, capture_output=True, text=True,
timeout=120)` call: normal completion with exit code and captured
streams, a `subprocess.TimeoutExpired`, or any other spawn exception
(e.g. `FileNotFoundError`) with its `str(e)` rendering. -/
inductive ProcOutcome where
  | completed : Int → String → String → ProcOutcome
  | timedOut : ProcOutcome
  | spawnFailed : String → ProcOutcome

/-- The external world of the cloud tool: the behaviour of the `az`
subprocess on each full argument vector, and the behaviour of
`json.loads` on each captured stdout (`Option.none` models a raised
`json.JSONDecodeError`). -/
structure AzEnv where
  proc : List String → ProcOutcome
  decode : String → Option PyVal

/-- The dict returned by `run_az_command`: the Python code builds it
with a `success` flag and exactly one of the keys `data` / `error`;
absent keys are `Option.none` here. -/
structure AzResult where
  success : Bool
  data : Option PyVal
  error : Option String

/-- Effect state of the cloud tool: lines printed so far, and the full
argument vectors of the external processes spawned so far. -/
structure AzState where
  printed : List String
  calls : List (List String)

def AzState.init : AzState := ⟨[], []⟩

abbrev AzM (α : Type) : Type := PyM AzState α

/-- `print(line)` in the cloud tool. -/
def pr (line : String) : AzM Unit :=
  PyM.modifyS (fun s => { s with printed := s.printed ++ [line] })

theorem run_pr (line : String) (s : AzState) :
    (pr line).run s = (Except.ok (), { s with printed := s.printed ++ [line] }) := rfl

/-- `cmd = ["az"] + args` followed by the two conditional appends of
`-o` and `json` when `parse_json` is set. -/
def buildCmd (args : List String) (parse_json : Bool) : List String :=
  ["az"] ++ args ++ (if parse_json then ["-o", "json"] else [])

/-- The value computed by `run_az_command`'s try/except body, as a pure
function of the oracle: non-zero exit returns the stderr as error;
timeout and spawn exceptions return failure dicts; on zero exit with
`parse_json` and non-blank stdout, `json.loads` is attempted and a
`JSONDecodeError` is caught, returning the raw stdout as a *success*
(the last `except json.JSONDecodeError` branch of the source). -/
def az_result (env : AzEnv) (args : List String) (parse_json : Bool) : AzResult :=
  match env.proc (buildCmd args parse_json) with
  | ProcOutcome.completed rc out err =>
      if rc ≠ 0 then ⟨false, Option.none, some err⟩
      else if parse_json && (pyStrip out != "") then
        match env.decode out with
        | some v => ⟨true, some v, Option.none⟩
        | Option.none => ⟨true, some (PyVal.str out), Option.none⟩
      else ⟨true, some (PyVal.str out), Option.none⟩
  | ProcOutcome.timedOut => ⟨false, Option.none, some "Command timed out"⟩
  | ProcOutcome.spawnFailed e => ⟨false, Option.none, some e⟩

/-- `run_az_command(args, parse_json)`: spawns the external process
(recorded in the effect state) and classifies its outcome. -/
def run_az_command (env : AzEnv) (args : List String) (parse_json : Bool) : AzM AzResult := do
  PyM.modifyS (fun s => { s with calls := s.calls ++ [buildCmd args parse_json] })
  pure (az_result env args parse_json)

theorem run_run_az_command (env : AzEnv) (args : List String) (parse_json : Bool) (s : AzState) :
    (run_az_command env args parse_json).run s =
      (Except.ok (az_result env args parse_json),
       { s with calls := s.calls ++ [buildCmd args parse_json] }) := rfl

/-- `result["data"]` on the result dict. -/
def getData (r : AzResult) : Except String PyVal :=
  match r.data with
  | some v => Except.ok v
  | Option.none => Except.error "KeyError: data"

/-- f-string rendering of `result.get('error')` (`None` when absent). -/
def optErrStr : Option String → String
  | some e => e
  | Option.none => "None"

/-- `"-" * 60`. -/
def dashes60 : String := String.mk (List.replicate 60 '-')

/-- Body of the subscription-printing loop of `list_subscriptions`. -/
def sub_line (sub : PyVal) : AzM Unit := do
  let st ← liftE (pyGet sub "state" PyVal.none)
  let status := if pyEqStr st "Enabled" then "✓" else "✗"
  let dfl ← liftE (pyGet sub "isDefault" PyVal.none)
  let dflt := if truthy dfl then " (DEFAULT)" else ""
  let nm ← liftE (getItem sub "name")
  pr ("  " ++ status ++ " " ++ pyStr nm ++ dflt)
  let i ← liftE (getItem sub "id")
  pr ("    ID: " ++ pyStr i)

/-- The Python return value of a cloud-tool handler: a decoded payload,
the result dict of `run_az_command`, a plain dict literal, or `None`
(the value of a bare `print(...)` used as an expression). -/
inductive Ret where
  | val : PyVal → Ret
  | res : AzResult → Ret
  | pynone : Ret

/-- `list_subscriptions()`. -/
def list_subscriptions (env : AzEnv) : AzM Ret := do
  let result ← run_az_command env ["account", "list"] true
  if result.success then do
    pr "\n📋 Azure Subscriptions:"
    pr dashes60
    let data ← liftE (getData result)
    let subs ← liftE (pyIter data)
    forList subs sub_line
    pure (Ret.val data)
  else do
    pr ("❌ Error: " ++ optErrStr result.error)
    pure (Ret.res result)

/-- `login()`: prints a banner, runs `az login` with `parse_json=False`,
and on success chains to `list_subscriptions` (the trailing
`return result` of the source is reached only on failure). -/
def login (env : AzEnv) : AzM Ret := do
  pr "Opening browser for Azure login..."
  let result ← run_az_command env ["login"] false
  if result.success then do
    pr "✅ Login successful!"
    list_subscriptions env
  else do
    pr ("❌ Login failed: " ++ optErrStr result.error)
    pure (Ret.res result)

/-- `set_subscription(subscription_id)`. -/
def set_subscription (env : AzEnv) (subscription_id : String) : AzM Ret := do
  let result ← run_az_command env ["account", "set", "--subscription", subscription_id] true
  if result.success then
    pr ("✅ Active subscription set to: " ++ subscription_id)
  pure (Ret.res result)

/-- Body of the group-printing loop of `list_resource_groups`. -/
def rg_line (rg : PyVal) : AzM Unit := do
  let nm ← liftE (getItem rg "name")
  let loc ← liftE (getItem rg "location")
  pr ("  • " ++ pyStr nm ++ " (" ++ pyStr loc ++ ")")

/-- `list_resource_groups()`: note that on failure nothing is printed;
the failure dict is returned silently. -/
def list_resource_groups (env : AzEnv) : AzM Ret := do
  let result ← run_az_command env ["group", "list"] true
  if result.success then do
    pr "\n📁 Resource Groups:"
    pr dashes60
    let data ← liftE (getData result)
    let rgs ← liftE (pyIter data)
    forList rgs rg_line
    pure (Ret.val data)
  else
    pure (Ret.res result)

/-- Body of the resource-printing loop of `list_resources`. -/
def res_line (res : PyVal) : AzM Unit := do
  let nm ← liftE (getItem res "name")
  pr ("  • " ++ pyStr nm)
  let ty ← liftE (getItem res "type")
  pr ("    Type: " ++ pyStr ty)
  let loc ← liftE (getItem res "location")
  pr ("    Location: " ++ pyStr loc)
  pr ""

/-- Truthiness of the optional `resource_group: str = None` parameter
(`None` and the empty string are falsy). -/
def strOptTruthy : Option String → Bool
  | some g => g != ""
  | Option.none => false

/-- `list_resources(resource_group=None)`. -/
def list_resources (env : AzEnv) (resource_group : Option String) : AzM Ret := do
  let args := ["resource", "list"] ++
    (if strOptTruthy resource_group then ["--resource-group", resource_group.getD ""] else [])
  let result ← run_az_command env args true
  if result.success then do
    pr ("\n🔧 Resources" ++
      (if strOptTruthy resource_group then " in " ++ resource_group.getD "" else "") ++ ":")
    pr dashes60
    let data ← liftE (getData result)
    let rs ← liftE (pyIter data)
    forList rs res_line
    pure (Ret.val data)
  else
    pure (Ret.res result)

/-- `get_cognitive_keys(resource_name, resource_group)`: on success
prints the two keys redacted to `keys.get(k, 'N/A')[:20]` followed by
`...`. -/
def get_cognitive_keys (env : AzEnv) (resource_name resource_group : String) : AzM Ret := do
  let result ← run_az_command env
    ["cognitiveservices", "account", "keys", "list",
     "--name", resource_name, "--resource-group", resource_group] true
  if result.success then do
    let keys ← liftE (getData result)
    pr ("\n🔑 API Keys for " ++ resource_name ++ ":")
    pr dashes60
    let k1 ← liftE (pyGet keys "key1" (PyVal.str "N/A"))
    let k1s ← liftE (pySlice k1 20)
    pr ("  Key1: " ++ pyStr k1s ++ "...")
    let k2 ← liftE (pyGet keys "key2" (PyVal.str "N/A"))
    let k2s ← liftE (pySlice k2 20)
    pr ("  Key2: " ++ pyStr k2s ++ "...")
    pure (Ret.val keys)
  else do
    pr ("❌ Error: " ++ optErrStr result.error)
    pure (Ret.res result)

/-- Body of the key-printing loop of `get_storage_keys`:
`print(f"  {key['keyName']}: {key['value'][:20]}...")`. -/
def storage_key_line (key : PyVal) : AzM Unit := do
  let kn ← liftE (getItem key "keyName")
  let v ← liftE (getItem key "value")
  let vs ← liftE (pySlice v 20)
  pr ("  " ++ pyStr kn ++ ": " ++ pyStr vs ++ "...")

/-- `get_storage_keys(account_name, resource_group)`: note that on
failure nothing is printed. -/
def get_storage_keys (env : AzEnv) (account_name resource_group : String) : AzM Ret := do
  let result ← run_az_command env
    ["storage", "account", "keys", "list",
     "--account-name", account_name, "--resource-group", resource_group] true
  if result.success then do
    let keys ← liftE (getData result)
    pr ("\n🔑 Storage Keys for " ++ account_name ++ ":")
    pr dashes60
    let ks ← liftE (pyIter keys)
    forList ks storage_key_line
    pure (Ret.val keys)
  else
    pure (Ret.res result)

/-- `get_openai_keys(resource_name, resource_group)`: a pure alias of
`get_cognitive_keys`. -/
def get_openai_keys (env : AzEnv) (resource_name resource_group : String) : AzM Ret :=
  get_cognitive_keys env resource_name resource_group

/-- `get_keys(resource_type, resource_name, resource_group)`: the
`type_map` dispatch on `resource_type.lower()`; the unknown-type branch
prints the supported types (`', '.join(type_map.keys())`) and returns a
plain error dict. -/
def get_keys (env : AzEnv) (resource_type resource_name resource_group : String) : AzM Ret :=
  let t := pyLower resource_type
  if t = "cognitive" then get_cognitive_keys env resource_name resource_group
  else if t = "openai" then get_openai_keys env resource_name resource_group
  else if t = "storage" then get_storage_keys env resource_name resource_group
  else do
    pr ("❌ Unknown resource type: " ++ resource_type)
    pr "   Supported types: cognitive, openai, storage"
    pure (Ret.val (PyVal.dict [("error", PyVal.str "Unknown resource type")]))

/-- `create_resource_group(name, location="eastus")` (the default is
supplied by the dispatcher; here the argument is explicit). -/
def create_resource_group (env : AzEnv) (name location : String) : AzM Ret := do
  let result ← run_az_command env
    ["group", "create", "--name", name, "--location", location] true
  if result.success then
    pr ("✅ Resource group \x27" ++ name ++ "\x27 created in " ++ location)
  pure (Ret.res result)

/-- `create_cognitive_service(name, resource_group, kind, sku,
location)` (Python defaults `kind="CognitiveServices"`, `sku="S0"`,
`location="eastus"` are supplied explicitly by callers here). -/
def create_cognitive_service (env : AzEnv) (name resource_group kind sku location : String) : AzM Ret := do
  let result ← run_az_command env
    ["cognitiveservices", "account", "create",
     "--name", name, "--resource-group", resource_group,
     "--kind", kind, "--sku", sku, "--location", location, "--yes"] true
  if result.success then do
    pr ("✅ Cognitive Service \x27" ++ name ++ "\x27 (" ++ kind ++ ") created")
    get_cognitive_keys env name resource_group
  else
    pure (Ret.res result)

/-- `create_storage_account(name, resource_group, sku, location)`. -/
def create_storage_account (env : AzEnv) (name resource_group sku location : String) : AzM Ret := do
  let result ← run_az_command env
    ["storage", "account", "create",
     "--name", name, "--resource-group", resource_group,
     "--sku", sku, "--location", location] true
  if result.success then do
    pr ("✅ Storage account \x27" ++ name ++ "\x27 created")
    get_storage_keys env name resource_group
  else
    pure (Ret.res result)

/-- `create_openai_service(name, resource_group, location="eastus")`:
delegates to `create_cognitive_service` with `kind="OpenAI"`, the
default `sku="S0"`, and the same location. -/
def create_openai_service (env : AzEnv) (name resource_group location : String) : AzM Ret :=
  create_cognitive_service env name resource_group "OpenAI" "S0" location

/-- Body of the deployment-printing loop of `list_openai_deployments`
(`dep.get('properties', {}).get('model', {}).get('name', 'N/A')`). -/
def dep_line (dep : PyVal) : AzM Unit := do
  let nm ← liftE (getItem dep "name")
  pr ("  • " ++ pyStr nm)
  let props ← liftE (pyGet dep "properties" (PyVal.dict []))
  let model ← liftE (pyGet props "model" (PyVal.dict []))
  let mn ← liftE (pyGet model "name" (PyVal.str "N/A"))
  pr ("    Model: " ++ pyStr mn)

/-- `list_openai_deployments(resource_name, resource_group)`: on
failure nothing is printed. -/
def list_openai_deployments (env : AzEnv) (resource_name resource_group : String) : AzM Ret := do
  let result ← run_az_command env
    ["cognitiveservices", "account", "deployment", "list",
     "--name", resource_name, "--resource-group", resource_group] true
  if result.success then do
    pr ("\n🤖 Deployments for " ++ resource_name ++ ":")
    pr dashes60
    let data ← liftE (getData result)
    let deps ← liftE (pyIter data)
    forList deps dep_line
    pure (Ret.val data)
  else
    pure (Ret.res result)

/-- `create_openai_deployment(...)` (not reachable from the command
table; included for completeness of the module model). -/
def create_openai_deployment (env : AzEnv)
    (resource_name resource_group deployment_name model_name model_version : String) : AzM Ret := do
  let result ← run_az_command env
    ["cognitiveservices", "account", "deployment", "create",
     "--name", resource_name, "--resource-group", resource_group,
     "--deployment-name", deployment_name, "--model-name", model_name,
     "--model-version", model_version, "--model-format", "OpenAI"] true
  if result.success then
    pr ("✅ Deployment \x27" ++ deployment_name ++ "\x27 (" ++ model_name ++ ") created")
  pure (Ret.res result)

/-- `get_account_info()`: on failure nothing is printed. -/
def get_account_info (env : AzEnv) : AzM Ret := do
  let result ← run_az_command env ["account", "show"] true
  if result.success then do
    let acc ← liftE (getData result)
    pr "\n👤 Current Azure Account:"
    pr dashes60
    let nm ← liftE (getItem acc "name")
    pr ("  Subscription: " ++ pyStr nm)
    let i ← liftE (getItem acc "id")
    pr ("  ID: " ++ pyStr i)
    let t ← liftE (getItem acc "tenantId")
    pr ("  Tenant: " ++ pyStr t)
    let u ← liftE (pyGet acc "user" (PyVal.dict []))
    let un ← liftE (pyGet u "name" (PyVal.str "N/A"))
    pr ("  User: " ++ pyStr un)
    pure (Ret.val acc)
  else
    pure (Ret.res result)

/-- The keys of the `commands` dict of `main()`, in insertion order. -/
def azCommandNames : List String :=
  ["login", "account", "list_subscriptions", "list_groups", "list_resources",
   "get_keys", "create_resource_group", "create_cognitive", "create_storage",
   "create_openai", "list_deployments"]

/-- The module docstring printed by `main()` when no command is given
(abbreviated to its first line; no theorem depends on its content). -/
def azModuleDoc : String := "\nAzure Automation Toolkit\n"

/-- The command dispatch of `main()`: the `commands` dict lookup is
modelled as a comparison chain over the same keys in the same order;
each branch is the corresponding lambda of the source, including its
arity guard and usage string; the final branch is the
unknown-command path.  The handler return value is discarded, as in
`commands[command]()`. -/
def azDispatch (env : AzEnv) (command : String) (args : List String) : AzM Unit := do
  if command = "login" then do
    let _ ← login env
    pure ()
  else if command = "account" then do
    let _ ← get_account_info env
    pure ()
  else if command = "list_subscriptions" then do
    let _ ← list_subscriptions env
    pure ()
  else if command = "list_groups" then do
    let _ ← list_resource_groups env
    pure ()
  else if command = "list_resources" then do
    let _ ← list_resources env args.head?
    pure ()
  else if command = "get_keys" then
    match args with
    | t :: n :: g :: _ => do
      let _ ← get_keys env t n g
      pure ()
    | _ => pr "Usage: get_keys <type> <name> <resource_group>"
  else if command = "create_resource_group" then
    match args with
    | n :: rest => do
      let _ ← create_resource_group env n (match rest with | l :: _ => l | [] => "eastus")
      pure ()
    | [] => pr "Usage: create_resource_group <name> [location]"
  else if command = "create_cognitive" then
    match args with
    | n :: g :: rest => do
      let _ ← create_cognitive_service env n g
        (match rest with | k :: _ => k | [] => "CognitiveServices") "S0" "eastus"
      pure ()
    | _ => pr "Usage: create_cognitive <name> <resource_group> [kind]"
  else if command = "create_storage" then
    match args with
    | n :: g :: _ => do
      let _ ← create_storage_account env n g "Standard_LRS" "eastus"
      pure ()
    | _ => pr "Usage: create_storage <name> <resource_group>"
  else if command = "create_openai" then
    match args with
    | n :: g :: _ => do
      let _ ← create_openai_service env n g "eastus"
      pure ()
    | _ => pr "Usage: create_openai <name> <resource_group>"
  else if command = "list_deployments" then
    match args with
    | n :: g :: _ => do
      let _ ← list_openai_deployments env n g
      pure ()
    | _ => pr "Usage: list_deployments <resource_name> <resource_group>"
  else do
    pr ("Unknown command: " ++ command)
    pr ("Available: " ++ String.intercalate ", " azCommandNames)

/-- `main()` of the cloud tool: `argv` is the full `sys.argv`; with
fewer than two entries the module docstring is printed; otherwise
`argv[1].lower()` is dispatched with `argv[2:]`. -/
def azMain (env : AzEnv) (argv : List String) : AzM Unit :=
  match argv with
  | _ :: command :: args => azDispatch env (pyLower command) args
  | _ => pr azModuleDoc

/-
==============================================================
Model of src/browser_tools/browser_tool.py
==============================================================
-/

/-- Effect state of the browser tool: printed lines, browser-driver
events issued so far, the number of currently open browser sessions,
and whether the playwright driver context is active. -/
structure BTState where
  printed : List String
  events : List String
  openSessions : Nat
  playwrightActive : Bool

def BTState.init : BTState := ⟨[], [], 0, false⟩

abbrev BPy (α : Type) : Type := PyM BTState α

/-- `print(line)` in the browser tool. -/
def bpr (line : String) : BPy Unit :=
  PyM.modifyS (fun s => { s with printed := s.printed ++ [line] })

/-- Record a browser-driver event. -/
def recordEvent (e : String) : BPy Unit :=
  PyM.modifyS (fun s => { s with events := s.events ++ [e] })

/-- One search hit extracted by the in-page script of `search_google`. -/
structure SearchItem where
  title : String
  link : String
  snippet : String

/-- The dict returned by `search_google`. -/
structure SearchOut where
  query : String
  results : List SearchItem
  timestamp : String

/-- The dict returned by `take_screenshot`. -/
structure ShotOut where
  url : String
  screenshot : String
  timestamp : String

/-- The dict returned by `get_page_text`. -/
structure TextOut where
  url : String
  title : String
  text : String
  timestamp : String

/-- The dict returned by `get_page_html`. -/
structure HtmlOut where
  url : String
  html : String
  timestamp : String

/-- The dict returned by `click_and_extract` (`locator.text_content()`
may return `None`). -/
structure ClickOut where
  url : String
  clicked : String
  extracted : Option String
  timestamp : String

/-- The external world of the browser tool: for each awaited driver
step, whether it raises (`some message`) or succeeds, and the values
the page yields.  `datetime.now().isoformat()` is the oracle value
`nowIso`. -/
structure BrowserEnv where
  launchErr : Option String
  newPageErr : Option String
  gotoErr : String → Option String
  waitErr : Option String
  waitErr2 : Option String
  titleErr : Option String
  evalErr : Option String
  contentErr : Option String
  screenshotErr : Option String
  clickErr : Option String
  locatorErr : Option String
  closeErr : Option String
  titleVal : String
  bodyText : String
  htmlVal : String
  searchItems : List SearchItem
  locatorVal : Option String
  nowIso : String

/-- One awaited driver step: succeeds, or raises the oracle's
exception. -/
def bstep (e : Option String) : BPy Unit :=
  match e with
  | some m => PyM.throwExc m
  | Option.none => pure ()

/-- `async with async_playwright() as p:` — the body runs with the
driver context active; on exit of the block, normal or exceptional,
`__aexit__` stops the driver, which closes every browser session
launched within it (Playwright context-manager semantics). -/
def withPlaywright (body : BPy α) : BPy α :=
  ⟨fun s =>
    let p := body.run { s with playwrightActive := true }
    (p.1, { p.2 with openSessions := 0, playwrightActive := false })⟩

/-- `browser = await p.chromium.launch(headless=True)`: on success a
browser session is open. -/
def launchBrowser (env : BrowserEnv) : BPy Unit := do
  recordEvent "launch"
  bstep env.launchErr
  PyM.modifyS (fun s => { s with openSessions := s.openSessions + 1 })

/-- `await browser.close()`: on success the session is closed. -/
def closeBrowser (env : BrowserEnv) : BPy Unit := do
  recordEvent "close"
  bstep env.closeErr
  PyM.modifyS (fun s => { s with openSessions := s.openSessions - 1 })

/-- `page = await browser.new_page()`. -/
def newPage (env : BrowserEnv) : BPy Unit := do
  recordEvent "new_page"
  bstep env.newPageErr

/-- `await page.goto(url)`. -/
def gotoPage (env : BrowserEnv) (url : String) : BPy Unit := do
  recordEvent ("goto " ++ url)
  bstep (env.gotoErr url)

/-- `await page.wait_for_load_state("networkidle")`. -/
def waitIdle (env : BrowserEnv) : BPy Unit :=
  bstep env.waitErr

/-- `search_google(query)`: the in-page script takes the first five
extracted result items (`.slice(0, 5)`). -/
def search_google (env : BrowserEnv) (query : String) : BPy SearchOut :=
  withPlaywright do
    launchBrowser env
    newPage env
    gotoPage env ("https://www.google.com/search?q=" ++ query)
    waitIdle env
    bstep env.evalErr
    let results := env.searchItems.take 5
    closeBrowser env
    pure ⟨query, results, env.nowIso⟩

/-- `take_screenshot(url, output_path)`. -/
def take_screenshot (env : BrowserEnv) (url output_path : String) : BPy ShotOut :=
  withPlaywright do
    launchBrowser env
    newPage env
    gotoPage env url
    waitIdle env
    recordEvent ("screenshot " ++ output_path)
    bstep env.screenshotErr
    closeBrowser env
    pure ⟨url, output_path, env.nowIso⟩

/-- `get_page_text(url)`: the returned `text` field is
`text[:5000]`. -/
def get_page_text (env : BrowserEnv) (url : String) : BPy TextOut :=
  withPlaywright do
    launchBrowser env
    newPage env
    gotoPage env url
    waitIdle env
    bstep env.titleErr
    let title := env.titleVal
    bstep env.evalErr
    let text := env.bodyText
    closeBrowser env
    pure ⟨url, title, pySliceStr text 5000, env.nowIso⟩

/-- `get_page_html(url)`: the returned `html` field is
`html[:10000]`. -/
def get_page_html (env : BrowserEnv) (url : String) : BPy HtmlOut :=
  withPlaywright do
    launchBrowser env
    newPage env
    gotoPage env url
    waitIdle env
    bstep env.contentErr
    let html := env.htmlVal
    closeBrowser env
    pure ⟨url, pySliceStr html 10000, env.nowIso⟩

/-- `click_and_extract(url, click_selector, extract_selector)`. -/
def click_and_extract (env : BrowserEnv) (url click_selector extract_selector : String) : BPy ClickOut :=
  withPlaywright do
    launchBrowser env
    newPage env
    gotoPage env url
    waitIdle env
    recordEvent ("click " ++ click_selector)
    bstep env.clickErr
    bstep env.waitErr2
    recordEvent ("text_content " ++ extract_selector)
    bstep env.locatorErr
    let text := env.locatorVal
    closeBrowser env
    pure ⟨url, click_selector, text, env.nowIso⟩

/-- JSON rendering of a string (escaping is not modelled; no theorem
depends on it). -/
def jsonQ (s : String) : String := "\"" ++ s ++ "\""

/-- `json.dumps(result, indent=2)` for `search_google`. -/
def dumpsSearch (r : SearchOut) : String :=
  "\x7b\n  " ++ jsonQ "query" ++ ": " ++ jsonQ r.query ++ ",\n  " ++ jsonQ "results"
    ++ ": [" ++ String.intercalate ", "
        (r.results.map (fun it => "\x7b" ++ jsonQ "title" ++ ": " ++ jsonQ it.title
          ++ ", " ++ jsonQ "link" ++ ": " ++ jsonQ it.link
          ++ ", " ++ jsonQ "snippet" ++ ": " ++ jsonQ it.snippet ++ "\x7d"))
    ++ "],\n  " ++ jsonQ "timestamp" ++ ": " ++ jsonQ r.timestamp ++ "\n\x7d"

/-- `json.dumps(result, indent=2)` for `take_screenshot`. -/
def dumpsShot (r : ShotOut) : String :=
  "\x7b\n  " ++ jsonQ "url" ++ ": " ++ jsonQ r.url ++ ",\n  " ++ jsonQ "screenshot"
    ++ ": " ++ jsonQ r.screenshot ++ ",\n  " ++ jsonQ "timestamp" ++ ": "
    ++ jsonQ r.timestamp ++ "\n\x7d"

/-- `json.dumps(result, indent=2)` for `get_page_text`. -/
def dumpsText (r : TextOut) : String :=
  "\x7b\n  " ++ jsonQ "url" ++ ": " ++ jsonQ r.url ++ ",\n  " ++ jsonQ "title"
    ++ ": " ++ jsonQ r.title ++ ",\n  " ++ jsonQ "text" ++ ": " ++ jsonQ r.text
    ++ ",\n  " ++ jsonQ "timestamp" ++ ": " ++ jsonQ r.timestamp ++ "\n\x7d"

/-- `json.dumps(result, indent=2)` for `get_page_html`. -/
def dumpsHtml (r : HtmlOut) : String :=
  "\x7b\n  " ++ jsonQ "url" ++ ": " ++ jsonQ r.url ++ ",\n  " ++ jsonQ "html"
    ++ ": " ++ jsonQ r.html ++ ",\n  " ++ jsonQ "timestamp" ++ ": "
    ++ jsonQ r.timestamp ++ "\n\x7d"

/-- The valid commands of the browser tool. -/
def browserCommandNames : List String := ["search", "screenshot", "get_text", "get_html"]

/-- The command list printed by the browser tool. -/
def browserCommandsLine : String := "Commands: search, screenshot, get_text, get_html"

/-- `main()` of the browser tool: `argv` is the full `sys.argv`.  The
elif chain checks the command name together with an arity bound on
`len(sys.argv)`; any unknown command or known command with too few
arguments falls to the final branch, which prints a usage message and
returns. -/
def browserMain (env : BrowserEnv) (argv : List String) : BPy Unit := do
  if argv.length < 2 then do
    bpr "Usage: python browser_tool.py <command> [args...]"
    bpr browserCommandsLine
  else
    let command := argv.getD 1 ""
    if command = "search" && argv.length ≥ 3 then do
      let query := String.intercalate " " (argv.drop 2)
      let result ← search_google env query
      bpr (dumpsSearch result)
    else if command = "screenshot" && argv.length ≥ 4 then do
      let url := argv.getD 2 ""
      let output := argv.getD 3 ""
      let result ← take_screenshot env url output
      bpr (dumpsShot result)
    else if command = "get_text" && argv.length ≥ 3 then do
      let url := argv.getD 2 ""
      let result ← get_page_text env url
      bpr (dumpsText result)
    else if command = "get_html" && argv.length ≥ 3 then do
      let url := argv.getD 2 ""
      let result ← get_page_html env url
      bpr (dumpsHtml result)
    else do
      bpr ("Unknown command or missing arguments: " ++ command)
      bpr browserCommandsLine


/-
==============================================================
Claims about `run_az_command` (C1, C2, C9)
==============================================================
-/

/-- A concrete external world: the process always exits zero with a
stdout that `json.loads` rejects. -/
def azEnvDecodeFail : AzEnv :=
  ⟨fun _ => ProcOutcome.completed 0 "not json" "", fun _ => Option.none⟩

/-- A concrete external world: the process always exits with code one
and stderr "boom". -/
def azEnvExitOne : AzEnv :=
  ⟨fun _ => ProcOutcome.completed 1 "" "boom", fun _ => Option.none⟩

/-- Helper: a zero-exit completed process is always classified as a
success by `run_az_command`, whatever the decoder does. -/
theorem az_result_zero_exit_success (env : AzEnv) (args : List String) (parse_json : Bool)
    (out err : String)
    (hproc : env.proc (buildCmd args parse_json) = ProcOutcome.completed 0 out err) :
    (az_result env args parse_json).success = true := by
  unfold az_result
  rw [hproc]
  simp only [ne_eq, not_true_eq_false, if_false, reduceIte]
  split
  · split <;> rfl
  · rfl

/-- C1: for every invocation of `run_az_command` with `parse_json=True`
in which the external process exits zero but the captured stdout fails
to decode (`json.loads` raises), the returned result is a success dict
carrying the raw stdout text, with no error field: the decode failure
is never surfaced as an error to the caller. -/
theorem run_az_command_decode_failure_is_success (env : AzEnv) (args : List String)
    (out err : String)
    (hproc : env.proc (buildCmd args true) = ProcOutcome.completed 0 out err)
    (hdec : env.decode out = Option.none) (s : AzState) :
    (run_az_command env args true).run s =
      (Except.ok ⟨true, some (PyVal.str out), Option.none⟩,
       { s with calls := s.calls ++ [buildCmd args true] }) := by
  rw [run_run_az_command]
  unfold az_result
  rw [hproc]
  simp only [ne_eq, not_true_eq_false, if_false, reduceIte]
  split
  · rw [hdec]
  · rfl

/-- C1 witness: a concrete zero-exit invocation whose stdout does not
decode returns a success carrying the raw text. -/
theorem run_az_command_decode_failure_is_success_witness :
    azEnvDecodeFail.proc (buildCmd ["account", "list"] true) =
        ProcOutcome.completed 0 "not json" "" ∧
    azEnvDecodeFail.decode "not json" = Option.none ∧
    (run_az_command azEnvDecodeFail ["account", "list"] true).run AzState.init =
      (Except.ok ⟨true, some (PyVal.str "not json"), Option.none⟩,
       ⟨[], [["az", "account", "list", "-o", "json"]]⟩) :=
  ⟨rfl, rfl,
    run_az_command_decode_failure_is_success azEnvDecodeFail ["account", "list"]
      "not json" "" rfl rfl AzState.init⟩

/-- C2 counterexample: the claim classifies a decode failure as a
failure outcome; but a zero-exit process whose stdout fails to decode
is classified as a *success* (carrying the raw text), so the claim as
stated is false. -/
theorem az_outcome_claim_counterexample :
    ¬ (∀ (env : AzEnv) (args : List String) (out err : String),
        env.proc (buildCmd args true) = ProcOutcome.completed 0 out err →
        env.decode out = Option.none →
        (az_result env args true).success = false) := by
  intro h
  have hx := h azEnvDecodeFail ["account", "list"] "not json" "" rfl rfl
  rw [az_result_zero_exit_success azEnvDecodeFail ["account", "list"] true
    "not json" "" rfl] at hx
  exact absurd hx (by decide)

/-- C2 (amended): for every invocation of `run_az_command`, a completed
process is classified as success exactly when its exit code is zero,
and a non-zero exit yields a failure carrying the captured stderr; a
timeout yields the failure "Command timed out"; a spawn exception
yields a failure carrying its message.  (A decode failure on a
zero-exit run yields a success with the raw text, not a failure.) -/
theorem az_outcome_classification (env : AzEnv) (args : List String) (parse_json : Bool) :
    (∀ (rc : Int) (out err : String),
      env.proc (buildCmd args parse_json) = ProcOutcome.completed rc out err →
      (((az_result env args parse_json).success = true) ↔ rc = 0) ∧
      (rc ≠ 0 → az_result env args parse_json = ⟨false, Option.none, some err⟩)) ∧
    (env.proc (buildCmd args parse_json) = ProcOutcome.timedOut →
      az_result env args parse_json = ⟨false, Option.none, some "Command timed out"⟩) ∧
    (∀ e : String, env.proc (buildCmd args parse_json) = ProcOutcome.spawnFailed e →
      az_result env args parse_json = ⟨false, Option.none, some e⟩) := by
  refine ⟨?_, ?_, ?_⟩
  · intro rc out err hproc
    by_cases hrc : rc = 0
    · subst hrc
      refine ⟨?_, fun h0 => absurd rfl h0⟩
      rw [az_result_zero_exit_success env args parse_json out err hproc]
      simp
    · refine ⟨?_, fun _ => ?_⟩
      · unfold az_result
        rw [hproc]
        simp [hrc]
      · unfold az_result
        rw [hproc]
        simp [hrc]
  · intro hproc
    unfold az_result
    rw [hproc]
  · intro e hproc
    unfold az_result
    rw [hproc]

/-- C2 witness: a concrete exit-code-one invocation is classified as a
failure carrying the captured stderr. -/
theorem az_outcome_classification_witness :
    az_result azEnvExitOne ["group", "list"] true = ⟨false, Option.none, some "boom"⟩ :=
  ((az_outcome_classification azEnvExitOne ["group", "list"] true).1 1 "" "boom" rfl).2
    (by decide)

/-- C9: every result dict built by `run_az_command` has exactly one
outcome field set: the data field is present exactly when `success` is
true, and the error field is present exactly when `success` is false,
on every return path of the function. -/
theorem az_result_single_outcome_tag (env : AzEnv) (args : List String) (parse_json : Bool) :
    ((az_result env args parse_json).data.isSome = (az_result env args parse_json).success) ∧
    ((az_result env args parse_json).error.isSome = !(az_result env args parse_json).success) := by
  unfold az_result
  cases env.proc (buildCmd args parse_json) with
  | completed rc out err =>
      by_cases hrc : rc = 0
      · subst hrc
        simp only [ne_eq, not_true_eq_false, if_false, reduceIte]
        split
        · split <;> simp
        · simp
      · simp [hrc]
  | timedOut => simp
  | spawnFailed e => simp

/-
==============================================================
C10: the OpenAI operations are aliases
==============================================================
-/

/-- C10: for every external world, resource name, resource group and
location, `get_openai_keys` returns exactly the computation of
`get_cognitive_keys` on the same arguments, and `create_openai_service`
returns exactly the computation of `create_cognitive_service` with
`kind="OpenAI"`, the default `sku="S0"` and the same location: the
OpenAI operations are pure aliases of the cognitive-services
operations. -/
theorem openai_ops_are_aliases (env : AzEnv) (name group location : String) :
    get_openai_keys env name group = get_cognitive_keys env name group ∧
    create_openai_service env name group location =
      create_cognitive_service env name group "OpenAI" "S0" location :=
  ⟨rfl, rfl⟩

/-
==============================================================
C3 / C4: dispatcher behaviour on unknown commands and missing
arguments, in both tools
==============================================================
-/

/-- A concrete browser world in which every awaited step succeeds. -/
def browserEnvOk : BrowserEnv :=
  ⟨Option.none, Option.none, fun _ => Option.none, Option.none, Option.none,
   Option.none, Option.none, Option.none, Option.none, Option.none, Option.none,
   Option.none, "Example Title", "hello body", "<html></html>", [], Option.none,
   "2026-01-01T00:00:00"⟩

/-- Helper (cloud tool): dispatching a command name outside the command
table prints the unknown-command line and the full list of valid
command names, spawns no external process, and finishes normally. -/
theorem az_dispatch_unknown (env : AzEnv) (c : String) (args : List String)
    (h : c ∉ azCommandNames) (s : AzState) :
    (azDispatch env c args).run s =
      (Except.ok (),
       { s with printed := s.printed ++
          ["Unknown command: " ++ c,
           "Available: " ++ String.intercalate ", " azCommandNames] }) := by
  simp only [azCommandNames, List.mem_cons, List.mem_singleton, not_or] at h
  obtain ⟨h1, h2, h3, h4, h5, h6, h7, h8, h9, h10, h11, -⟩ := h
  unfold azDispatch
  rw [if_neg h1, if_neg h2, if_neg h3, if_neg h4, if_neg h5, if_neg h6,
      if_neg h7, if_neg h8, if_neg h9, if_neg h10, if_neg h11]
  simp [pr, PyM.run_bind, PyM.run_modifyS, List.append_assoc]

/-- Helper (browser tool): dispatching an `argv` whose command name is
outside the command table prints the usage message naming the command
and the full list of valid command names, issues no browser-driver
event, and finishes normally. -/
theorem browser_main_unknown (env : BrowserEnv) (prog c : String) (rest : List String)
    (h : c ∉ browserCommandNames) (s : BTState) :
    (browserMain env (prog :: c :: rest)).run s =
      (Except.ok (),
       { s with printed := s.printed ++
          ["Unknown command or missing arguments: " ++ c, browserCommandsLine] }) := by
  simp only [browserCommandNames, List.mem_cons, List.mem_singleton, not_or] at h
  obtain ⟨h1, h2, h3, h4, -⟩ := h
  unfold browserMain
  rw [if_neg (by simp only [List.length_cons]; omega)]
  have hc : (prog :: c :: rest).getD 1 "" = c := rfl
  rw [hc]
  rw [if_neg (by simp [h1]), if_neg (by simp [h2]), if_neg (by simp [h3]),
      if_neg (by simp [h4])]
  simp [bpr, PyM.run_bind, PyM.run_modifyS, List.append_assoc]

/-- C3: for every command name not present in the static command table
(in either tool), the dispatcher prints the full set of valid command
names, invokes no handler and no external or browser call (the effect
trace records no spawned process and no driver event), and terminates
normally (no exception, so the process exits with the default success
status). -/
theorem unknown_command_lists_commands (azenv : AzEnv) (benv : BrowserEnv)
    (prog c prog2 c2 : String) (rest rest2 : List String)
    (hA : pyLower c ∉ azCommandNames) (hB : c2 ∉ browserCommandNames) :
    (azMain azenv (prog :: c :: rest)).run AzState.init =
      (Except.ok (),
       ⟨["Unknown command: " ++ pyLower c,
         "Available: login, account, list_subscriptions, list_groups, " ++
           "list_resources, get_keys, create_resource_group, create_cognitive, " ++
           "create_storage, create_openai, list_deployments"], []⟩) ∧
    (browserMain benv (prog2 :: c2 :: rest2)).run BTState.init =
      (Except.ok (),
       ⟨["Unknown command or missing arguments: " ++ c2,
         "Commands: search, screenshot, get_text, get_html"], [], 0, false⟩) := by
  constructor
  · have h := az_dispatch_unknown azenv (pyLower c) rest hA AzState.init
    unfold azMain
    rw [h]
    rfl
  · have h := browser_main_unknown benv prog2 c2 rest2 hB BTState.init
    rw [h]
    rfl

/-- C3 witness: concrete unknown commands in both tools. -/
theorem unknown_command_lists_commands_witness :
    (pyLower "Frobnicate" ∉ azCommandNames) ∧ ("wat" ∉ browserCommandNames) ∧
    ((azMain azEnvExitOne ["azure_automation.py", "Frobnicate"]).run AzState.init =
      (Except.ok (),
       ⟨["Unknown command: frobnicate",
         "Available: login, account, list_subscriptions, list_groups, " ++
           "list_resources, get_keys, create_resource_group, create_cognitive, " ++
           "create_storage, create_openai, list_deployments"], []⟩) ∧
     (browserMain browserEnvOk ["browser_tool.py", "wat"]).run BTState.init =
      (Except.ok (),
       ⟨["Unknown command or missing arguments: wat",
         "Commands: search, screenshot, get_text, get_html"], [], 0, false⟩)) :=
  ⟨by decide, by decide,
    unknown_command_lists_commands azEnvExitOne browserEnvOk
      "azure_automation.py" "Frobnicate" "browser_tool.py" "wat" [] []
      (by decide) (by decide)⟩

/-- The commands of the cloud tool that require positional arguments,
with their required count and the usage string their dispatch lambda
prints when given fewer. -/
def azUsage (c : String) : Option (Nat × String) :=
  if c = "get_keys" then some (3, "Usage: get_keys <type> <name> <resource_group>")
  else if c = "create_resource_group" then some (1, "Usage: create_resource_group <name> [location]")
  else if c = "create_cognitive" then some (2, "Usage: create_cognitive <name> <resource_group> [kind]")
  else if c = "create_storage" then some (2, "Usage: create_storage <name> <resource_group>")
  else if c = "create_openai" then some (2, "Usage: create_openai <name> <resource_group>")
  else if c = "list_deployments" then some (2, "Usage: list_deployments <resource_name> <resource_group>")
  else Option.none

/-- The commands of the browser tool with their required number of
positional arguments beyond the command name. -/
def browserArity (c : String) : Option Nat :=
  if c = "search" then some 1
  else if c = "screenshot" then some 2
  else if c = "get_text" then some 1
  else if c = "get_html" then some 1
  else Option.none

/-- Helper (cloud tool): a dispatched command given fewer positional
arguments than required prints exactly its usage string and spawns no
external process. -/
theorem az_dispatch_missing_args (env : AzEnv) (c : String) (n : Nat) (u : String)
    (args : List String) (hU : azUsage c = some (n, u)) (hlen : args.length < n)
    (s : AzState) :
    (azDispatch env c args).run s =
      (Except.ok (), { s with printed := s.printed ++ [u] }) := by
  by_cases h1 : c = "get_keys"
  · subst h1
    simp only [azUsage, reduceIte, Option.some.injEq, Prod.mk.injEq] at hU
    obtain ⟨rfl, rfl⟩ := hU
    rcases args with _ | ⟨a, _ | ⟨b, _ | ⟨d, t⟩⟩⟩
    · rfl
    · rfl
    · rfl
    · simp only [List.length_cons] at hlen; omega
  by_cases h2 : c = "create_resource_group"
  · subst h2
    simp only [azUsage, reduceIte, Option.some.injEq, Prod.mk.injEq] at hU
    obtain ⟨rfl, rfl⟩ := hU
    rcases args with _ | ⟨a, t⟩
    · rfl
    · simp only [List.length_cons] at hlen; omega
  by_cases h3 : c = "create_cognitive"
  · subst h3
    simp only [azUsage, reduceIte, Option.some.injEq, Prod.mk.injEq] at hU
    obtain ⟨rfl, rfl⟩ := hU
    rcases args with _ | ⟨a, _ | ⟨b, t⟩⟩
    · rfl
    · rfl
    · simp only [List.length_cons] at hlen; omega
  by_cases h4 : c = "create_storage"
  · subst h4
    simp only [azUsage, reduceIte, Option.some.injEq, Prod.mk.injEq] at hU
    obtain ⟨rfl, rfl⟩ := hU
    rcases args with _ | ⟨a, _ | ⟨b, t⟩⟩
    · rfl
    · rfl
    · simp only [List.length_cons] at hlen; omega
  by_cases h5 : c = "create_openai"
  · subst h5
    simp only [azUsage, reduceIte, Option.some.injEq, Prod.mk.injEq] at hU
    obtain ⟨rfl, rfl⟩ := hU
    rcases args with _ | ⟨a, _ | ⟨b, t⟩⟩
    · rfl
    · rfl
    · simp only [List.length_cons] at hlen; omega
  by_cases h6 : c = "list_deployments"
  · subst h6
    simp only [azUsage, reduceIte, Option.some.injEq, Prod.mk.injEq] at hU
    obtain ⟨rfl, rfl⟩ := hU
    rcases args with _ | ⟨a, _ | ⟨b, t⟩⟩
    · rfl
    · rfl
    · simp only [List.length_cons] at hlen; omega
  rw [azUsage, if_neg h1, if_neg h2, if_neg h3, if_neg h4, if_neg h5, if_neg h6] at hU
  exact Option.noConfusion hU

/-- Helper (browser tool): a known command given fewer positional
arguments than it requires falls to the final branch of the elif chain,
which prints the usage message naming the command and the command list,
and issues no browser-driver event. -/
theorem browser_main_missing_args (env : BrowserEnv) (prog c : String) (m : Nat)
    (args2 : List String) (hU : browserArity c = some m) (hlen : args2.length < m)
    (s : BTState) :
    (browserMain env (prog :: c :: args2)).run s =
      (Except.ok (),
       { s with printed := s.printed ++
          ["Unknown command or missing arguments: " ++ c, browserCommandsLine] }) := by
  by_cases h1 : c = "search"
  · subst h1
    obtain rfl := Option.some.inj ((show browserArity "search" = some 1 from rfl).symm.trans hU)
    rcases args2 with _ | ⟨a, t⟩
    · simp [browserMain, bpr, PyM.run_bind, PyM.run_modifyS, List.append_assoc]
    · simp only [List.length_cons] at hlen; omega
  by_cases h2 : c = "screenshot"
  · subst h2
    obtain rfl := Option.some.inj ((show browserArity "screenshot" = some 2 from rfl).symm.trans hU)
    rcases args2 with _ | ⟨a, _ | ⟨b, t⟩⟩
    · simp [browserMain, bpr, PyM.run_bind, PyM.run_modifyS, List.append_assoc]
    · simp [browserMain, bpr, PyM.run_bind, PyM.run_modifyS, List.append_assoc]
    · simp only [List.length_cons] at hlen; omega
  by_cases h3 : c = "get_text"
  · subst h3
    obtain rfl := Option.some.inj ((show browserArity "get_text" = some 1 from rfl).symm.trans hU)
    rcases args2 with _ | ⟨a, t⟩
    · simp [browserMain, bpr, PyM.run_bind, PyM.run_modifyS, List.append_assoc]
    · simp only [List.length_cons] at hlen; omega
  by_cases h4 : c = "get_html"
  · subst h4
    obtain rfl := Option.some.inj ((show browserArity "get_html" = some 1 from rfl).symm.trans hU)
    rcases args2 with _ | ⟨a, t⟩
    · simp [browserMain, bpr, PyM.run_bind, PyM.run_modifyS, List.append_assoc]
    · simp only [List.length_cons] at hlen; omega
  rw [browserArity, if_neg h1, if_neg h2, if_neg h3, if_neg h4] at hU
  exact Option.noConfusion hU

/-- C4: for every dispatched command requiring N positional arguments
(in either tool), invoking it with fewer than N arguments prints that
command's usage text — the per-command usage string in the cloud tool;
the usage message naming the command plus the command list in the
browser tool — and returns without spawning any external process or
issuing any browser-driver event. -/
theorem missing_args_prints_usage (azenv : AzEnv) (benv : BrowserEnv)
    (c : String) (n : Nat) (u : String) (args : List String)
    (prog c2 : String) (m : Nat) (args2 : List String)
    (hU : azUsage c = some (n, u)) (hlen : args.length < n)
    (hB : browserArity c2 = some m) (hlen2 : args2.length < m) :
    (azDispatch azenv c args).run AzState.init = (Except.ok (), ⟨[u], []⟩) ∧
    (browserMain benv (prog :: c2 :: args2)).run BTState.init =
      (Except.ok (),
       ⟨["Unknown command or missing arguments: " ++ c2,
         "Commands: search, screenshot, get_text, get_html"], [], 0, false⟩) := by
  constructor
  · rw [az_dispatch_missing_args azenv c n u args hU hlen AzState.init]
    rfl
  · rw [browser_main_missing_args benv prog c2 m args2 hB hlen2 BTState.init]
    rfl

/-- C4 witness: `get_keys` with one of three required arguments, and
`get_text` with none of its one required argument. -/
theorem missing_args_prints_usage_witness :
    azUsage "get_keys" = some (3, "Usage: get_keys <type> <name> <resource_group>") ∧
    ([("a" : String)].length < 3) ∧
    browserArity "get_text" = some 1 ∧ (([] : List String).length < 1) ∧
    ((azDispatch azEnvExitOne "get_keys" ["a"]).run AzState.init =
      (Except.ok (), ⟨["Usage: get_keys <type> <name> <resource_group>"], []⟩) ∧
     (browserMain browserEnvOk ["browser_tool.py", "get_text"]).run BTState.init =
      (Except.ok (),
       ⟨["Unknown command or missing arguments: get_text",
         "Commands: search, screenshot, get_text, get_html"], [], 0, false⟩)) :=
  ⟨rfl, by decide, rfl, by decide,
    missing_args_prints_usage azEnvExitOne browserEnvOk
      "get_keys" 3 "Usage: get_keys <type> <name> <resource_group>" ["a"]
      "browser_tool.py" "get_text" 1 []
      rfl (by decide) rfl (by decide)⟩

/-
==============================================================
C8: browser session release on every exit path
==============================================================
-/

/-- A concrete browser world whose `page.goto` raises on every
address. -/
def browserEnvGotoFails : BrowserEnv :=
  { browserEnvOk with gotoErr := fun _ => some "net::ERR_FAILED" }

/-- C8: for every browser-tool operation (search, screenshot, get_text,
get_html, click-and-extract) and every behaviour of the driver —
including runs in which navigation, waiting, or extraction raises — the
final state after the operation has no open browser session and no
active driver context: the `async with async_playwright()` block
releases the session on every exit path before control returns.  The
last conjunct exhibits the error path: when `page.goto` raises, the
exception propagates to the caller, yet the session is still
released. -/
theorem browser_session_always_released (env : BrowserEnv)
    (q url path cs es m : String) :
    (((search_google env q).run BTState.init).2.openSessions = 0 ∧
     ((search_google env q).run BTState.init).2.playwrightActive = false) ∧
    (((take_screenshot env url path).run BTState.init).2.openSessions = 0 ∧
     ((take_screenshot env url path).run BTState.init).2.playwrightActive = false) ∧
    (((get_page_text env url).run BTState.init).2.openSessions = 0 ∧
     ((get_page_text env url).run BTState.init).2.playwrightActive = false) ∧
    (((get_page_html env url).run BTState.init).2.openSessions = 0 ∧
     ((get_page_html env url).run BTState.init).2.playwrightActive = false) ∧
    (((click_and_extract env url cs es).run BTState.init).2.openSessions = 0 ∧
     ((click_and_extract env url cs es).run BTState.init).2.playwrightActive = false) ∧
    (env.launchErr = Option.none → env.newPageErr = Option.none →
     env.gotoErr url = some m →
     ((get_page_text env url).run BTState.init).1 = Except.error m ∧
     ((get_page_text env url).run BTState.init).2.openSessions = 0) := by
  refine ⟨⟨rfl, rfl⟩, ⟨rfl, rfl⟩, ⟨rfl, rfl⟩, ⟨rfl, rfl⟩, ⟨rfl, rfl⟩, ?_⟩
  intro hL hN hG
  refine ⟨?_, rfl⟩
  simp [get_page_text, withPlaywright, launchBrowser, newPage, gotoPage, waitIdle,
    closeBrowser, bstep, recordEvent, hL, hN, hG,
    PyM.run_bind, PyM.run_modifyS, PyM.run_throwExc, PyM.run_pure]

/-- C8 witness: a driver whose `goto` raises still ends with the
session released, and the exception reaches the caller. -/
theorem browser_session_always_released_witness :
    (browserEnvGotoFails.launchErr = Option.none) ∧
    (browserEnvGotoFails.newPageErr = Option.none) ∧
    (browserEnvGotoFails.gotoErr "http://x" = some "net::ERR_FAILED") ∧
    (((get_page_text browserEnvGotoFails "http://x").run BTState.init).1 =
       Except.error "net::ERR_FAILED" ∧
     ((get_page_text browserEnvGotoFails "http://x").run BTState.init).2.openSessions = 0) :=
  ⟨rfl, rfl, rfl,
    (browser_session_always_released browserEnvGotoFails
      "q" "http://x" "p" "c" "e" "net::ERR_FAILED").2.2.2.2.2 rfl rfl rfl⟩

/-
==============================================================
C5: content truncation in get_page_text / get_page_html
==============================================================
-/

/-- C5: on a run of `get_page_text` in which every driver step
succeeds, the returned `text` field is `text[:5000]`; when the
extracted body text is longer than 5,000 characters this is exactly the
first 5,000 characters (length 5,000, a prefix of the original, and not
the whole text).  Likewise `get_page_html` returns `html[:10000]`,
exactly the first 10,000 characters of markup longer than that. -/
theorem page_content_truncated (env : BrowserEnv) (url : String)
    (hL : env.launchErr = Option.none) (hN : env.newPageErr = Option.none)
    (hG : env.gotoErr url = Option.none) (hW : env.waitErr = Option.none)
    (hT : env.titleErr = Option.none) (hE : env.evalErr = Option.none)
    (hC : env.contentErr = Option.none) (hX : env.closeErr = Option.none) :
    (((get_page_text env url).run BTState.init).1 =
       Except.ok ⟨url, env.titleVal, pySliceStr env.bodyText 5000, env.nowIso⟩) ∧
    (5000 < env.bodyText.data.length →
       (pySliceStr env.bodyText 5000).data.length = 5000 ∧
       (pySliceStr env.bodyText 5000).data ++ env.bodyText.data.drop 5000 =
         env.bodyText.data ∧
       pySliceStr env.bodyText 5000 ≠ env.bodyText) ∧
    (((get_page_html env url).run BTState.init).1 =
       Except.ok ⟨url, pySliceStr env.htmlVal 10000, env.nowIso⟩) ∧
    (10000 < env.htmlVal.data.length →
       (pySliceStr env.htmlVal 10000).data.length = 10000 ∧
       (pySliceStr env.htmlVal 10000).data ++ env.htmlVal.data.drop 10000 =
         env.htmlVal.data ∧
       pySliceStr env.htmlVal 10000 ≠ env.htmlVal) := by
  refine ⟨?_, ?_, ?_, ?_⟩
  · simp [get_page_text, withPlaywright, launchBrowser, newPage, gotoPage, waitIdle,
      closeBrowser, bstep, recordEvent, hL, hN, hG, hW, hT, hE, hX,
      PyM.run_bind, PyM.run_modifyS, PyM.run_throwExc, PyM.run_pure]
  · intro hlen
    refine ⟨?_, ?_, ?_⟩
    · show (env.bodyText.data.take 5000).length = 5000
      rw [List.length_take]
      omega
    · exact List.take_append_drop 5000 env.bodyText.data
    · intro heq
      have hdl : (env.bodyText.data.take 5000).length = env.bodyText.data.length :=
        congrArg (fun t => t.data.length) heq
      rw [List.length_take] at hdl
      omega
  · simp [get_page_html, withPlaywright, launchBrowser, newPage, gotoPage, waitIdle,
      closeBrowser, bstep, recordEvent, hL, hN, hG, hW, hC, hX,
      PyM.run_bind, PyM.run_modifyS, PyM.run_throwExc, PyM.run_pure]
  · intro hlen
    refine ⟨?_, ?_, ?_⟩
    · show (env.htmlVal.data.take 10000).length = 10000
      rw [List.length_take]
      omega
    · exact List.take_append_drop 10000 env.htmlVal.data
    · intro heq
      have hdl : (env.htmlVal.data.take 10000).length = env.htmlVal.data.length :=
        congrArg (fun t => t.data.length) heq
      rw [List.length_take] at hdl
      omega

/-- A concrete browser world whose page yields 5,001 characters of body
text and 10,001 characters of markup. -/
def browserEnvLong : BrowserEnv :=
  { browserEnvOk with
      bodyText := String.mk (List.replicate 5001 'a'),
      htmlVal := String.mk (List.replicate 10001 'b') }

/-- C5 witness: on the 5,001-character page the returned text field has
exactly 5,000 characters and is not the full text, and the run returns
normally with `text[:5000]`. -/
theorem page_content_truncated_witness :
    (5000 < browserEnvLong.bodyText.data.length) ∧
    (10000 < browserEnvLong.htmlVal.data.length) ∧
    ((pySliceStr browserEnvLong.bodyText 5000).data.length = 5000 ∧
     pySliceStr browserEnvLong.bodyText 5000 ≠ browserEnvLong.bodyText) ∧
    ((pySliceStr browserEnvLong.htmlVal 10000).data.length = 10000 ∧
     pySliceStr browserEnvLong.htmlVal 10000 ≠ browserEnvLong.htmlVal) ∧
    (((get_page_text browserEnvLong "http://x").run BTState.init).1 =
       Except.ok ⟨"http://x", browserEnvLong.titleVal,
         pySliceStr browserEnvLong.bodyText 5000, browserEnvLong.nowIso⟩) := by
  have h5 : 5000 < browserEnvLong.bodyText.data.length := by
    show 5000 < (String.mk (List.replicate 5001 'a')).data.length
    rw [show (String.mk (List.replicate 5001 'a')).data = List.replicate 5001 'a' from rfl,
        List.length_replicate]
    omega
  have h10 : 10000 < browserEnvLong.htmlVal.data.length := by
    show 10000 < (String.mk (List.replicate 10001 'b')).data.length
    rw [show (String.mk (List.replicate 10001 'b')).data = List.replicate 10001 'b' from rfl,
        List.length_replicate]
    omega
  have T := page_content_truncated browserEnvLong "http://x"
    rfl rfl rfl rfl rfl rfl rfl rfl
  exact ⟨h5, h10, ⟨(T.2.1 h5).1, (T.2.1 h5).2.2⟩, ⟨(T.2.2.2 h10).1, (T.2.2.2 h10).2.2⟩, T.1⟩

/-
==============================================================
C6: key display redaction
==============================================================
-/

/-- Helper: a zero-exit process whose non-blank stdout decodes to `v`
yields a success result carrying `v`. -/
theorem az_result_decoded (env : AzEnv) (args : List String) (out err : String) (v : PyVal)
    (hproc : env.proc (buildCmd args true) = ProcOutcome.completed 0 out err)
    (hne : pyStrip out ≠ "") (hdec : env.decode out = some v) :
    az_result env args true = ⟨true, some v, Option.none⟩ := by
  unfold az_result
  rw [hproc]
  simp [hne, hdec]

/-- The decoded shape of one storage-account key entry. -/
def storageKeyDict (kv : String × String) : PyVal :=
  PyVal.dict [("keyName", PyVal.str kv.1), ("value", PyVal.str kv.2)]

/-- The line printed for one storage key: the key name, then the first
twenty characters of the secret, then the `...` marker. -/
def storageKeyLineStr (kv : String × String) : String :=
  "  " ++ kv.1 ++ ": " ++ pySliceStr kv.2 20 ++ "..."

/-- Helper: the key-printing loop of `get_storage_keys` prints exactly
one redacted line per key entry. -/
theorem storage_loop_spec (ks : List (String × String)) (s : AzState) :
    (forList (ks.map storageKeyDict) storage_key_line).run s =
      (Except.ok (), { s with printed := s.printed ++ ks.map storageKeyLineStr }) := by
  induction ks generalizing s with
  | nil => simp [run_forList_nil]
  | cons kv t ih =>
      rw [List.map_cons, forList_cons, PyM.run_bind]
      rw [show (storage_key_line (storageKeyDict kv)).run s =
        (Except.ok (), { s with printed := s.printed ++ [storageKeyLineStr kv] }) from rfl]
      show (forList (List.map storageKeyDict t) storage_key_line).run
        { s with printed := s.printed ++ [storageKeyLineStr kv] } = _
      rw [ih]
      simp [List.append_assoc]

/-- Helper: on a successful key listing whose payload is a dict with
string keys `key1`, `key2`, `get_cognitive_keys` prints exactly the two
redacted lines `  KeyN: <first 20 chars>...`. -/
theorem get_cognitive_keys_success_spec (env : AzEnv) (name group k1 k2 out err : String)
    (hproc : env.proc (buildCmd
        ["cognitiveservices", "account", "keys", "list",
         "--name", name, "--resource-group", group] true) =
      ProcOutcome.completed 0 out err)
    (hne : pyStrip out ≠ "")
    (hdec : env.decode out =
      some (PyVal.dict [("key1", PyVal.str k1), ("key2", PyVal.str k2)]))
    (s : AzState) :
    (get_cognitive_keys env name group).run s =
      (Except.ok (Ret.val (PyVal.dict [("key1", PyVal.str k1), ("key2", PyVal.str k2)])),
       { s with
          printed := s.printed ++
            ["\n🔑 API Keys for " ++ name ++ ":", dashes60,
             "  Key1: " ++ pySliceStr k1 20 ++ "...",
             "  Key2: " ++ pySliceStr k2 20 ++ "..."],
          calls := s.calls ++
            [buildCmd ["cognitiveservices", "account", "keys", "list",
              "--name", name, "--resource-group", group] true] }) := by
  have hres := az_result_decoded env
    ["cognitiveservices", "account", "keys", "list",
     "--name", name, "--resource-group", group] out err _ hproc hne hdec
  unfold get_cognitive_keys
  rw [PyM.run_bind, run_run_az_command, hres]
  simp [pr, getData, pyGet, pySlice, pyStr, liftE, PyM.run_bind, PyM.run_modifyS,
    PyM.run_pure, List.append_assoc]
  rw [show List.lookup "key2" [("key1", PyVal.str k1), ("key2", PyVal.str k2)] =
    some (PyVal.str k2) from rfl]
  simp [liftE, PyM.run_bind, PyM.run_pure, List.append_assoc]

/-- Helper: on a successful key listing whose payload is a list of
`{keyName, value}` entries with string values, `get_storage_keys`
prints exactly one redacted line per key:
`  <keyName>: <first 20 chars of value>...`. -/
theorem get_storage_keys_success_spec (env : AzEnv) (acct group out err : String)
    (ks : List (String × String))
    (hproc : env.proc (buildCmd
        ["storage", "account", "keys", "list",
         "--account-name", acct, "--resource-group", group] true) =
      ProcOutcome.completed 0 out err)
    (hne : pyStrip out ≠ "")
    (hdec : env.decode out = some (PyVal.list (ks.map storageKeyDict)))
    (s : AzState) :
    (get_storage_keys env acct group).run s =
      (Except.ok (Ret.val (PyVal.list (ks.map storageKeyDict))),
       { s with
          printed := s.printed ++
            ("\n🔑 Storage Keys for " ++ acct ++ ":") :: dashes60 ::
              ks.map storageKeyLineStr,
          calls := s.calls ++
            [buildCmd ["storage", "account", "keys", "list",
              "--account-name", acct, "--resource-group", group] true] }) := by
  have hres := az_result_decoded env
    ["storage", "account", "keys", "list",
     "--account-name", acct, "--resource-group", group] out err _ hproc hne hdec
  unfold get_storage_keys
  rw [PyM.run_bind, run_run_az_command, hres]
  simp [pr, getData, pyIter, liftE, PyM.run_bind, PyM.run_modifyS, PyM.run_pure]
  rw [storage_loop_spec ks]
  simp [List.append_assoc]

/-- C6: on every successful key-listing call, the key-display
formatting prints each secret as at most its first twenty characters
followed by the `...` truncation marker (`get_cognitive_keys` prints
`  KeyN: <value[:20]>...`; `get_storage_keys` prints
`  <keyName>: <value[:20]>...` per key), and a secret longer than
twenty characters is never printed in full: the printed fragment has at
most twenty characters and differs from the full secret. -/
theorem key_display_redacted (env1 env2 : AzEnv)
    (name group acct group2 k1 k2 out1 err1 out2 err2 : String)
    (ks : List (String × String)) (s : AzState)
    (hp1 : env1.proc (buildCmd
        ["cognitiveservices", "account", "keys", "list",
         "--name", name, "--resource-group", group] true) =
      ProcOutcome.completed 0 out1 err1)
    (hne1 : pyStrip out1 ≠ "")
    (hd1 : env1.decode out1 =
      some (PyVal.dict [("key1", PyVal.str k1), ("key2", PyVal.str k2)]))
    (hp2 : env2.proc (buildCmd
        ["storage", "account", "keys", "list",
         "--account-name", acct, "--resource-group", group2] true) =
      ProcOutcome.completed 0 out2 err2)
    (hne2 : pyStrip out2 ≠ "")
    (hd2 : env2.decode out2 = some (PyVal.list (ks.map storageKeyDict))) :
    ((get_cognitive_keys env1 name group).run s =
      (Except.ok (Ret.val (PyVal.dict [("key1", PyVal.str k1), ("key2", PyVal.str k2)])),
       { s with
          printed := s.printed ++
            ["\n🔑 API Keys for " ++ name ++ ":", dashes60,
             "  Key1: " ++ pySliceStr k1 20 ++ "...",
             "  Key2: " ++ pySliceStr k2 20 ++ "..."],
          calls := s.calls ++
            [buildCmd ["cognitiveservices", "account", "keys", "list",
              "--name", name, "--resource-group", group] true] })) ∧
    ((get_storage_keys env2 acct group2).run s =
      (Except.ok (Ret.val (PyVal.list (ks.map storageKeyDict))),
       { s with
          printed := s.printed ++
            ("\n🔑 Storage Keys for " ++ acct ++ ":") :: dashes60 ::
              ks.map storageKeyLineStr,
          calls := s.calls ++
            [buildCmd ["storage", "account", "keys", "list",
              "--account-name", acct, "--resource-group", group2] true] })) ∧
    (∀ k : String, (pySliceStr k 20).data.length ≤ 20 ∧
      (20 < k.data.length → pySliceStr k 20 ≠ k)) := by
  refine ⟨get_cognitive_keys_success_spec env1 name group k1 k2 out1 err1 hp1 hne1 hd1 s,
    get_storage_keys_success_spec env2 acct group2 out2 err2 ks hp2 hne2 hd2 s, ?_⟩
  intro k
  constructor
  · show (k.data.take 20).length ≤ 20
    rw [List.length_take]
    omega
  · intro hlong heq
    have hdl : (k.data.take 20).length = k.data.length :=
      congrArg (fun t => t.data.length) heq
    rw [List.length_take] at hdl
    omega

/-- A concrete external world for the cognitive key listing, with a
thirty-character secret. -/
def azEnvCogKeys : AzEnv :=
  ⟨fun _ => ProcOutcome.completed 0 "out" "",
   fun _ => some (PyVal.dict
     [("key1", PyVal.str "abcdefghijklmnopqrstuvwxyz0123"),
      ("key2", PyVal.str "shrt")])⟩

/-- A concrete external world for the storage key listing. -/
def azEnvStorKeys : AzEnv :=
  ⟨fun _ => ProcOutcome.completed 0 "out" "",
   fun _ => some (PyVal.list ([("key1", "ABCDEFGHIJKLMNOPQRSTUVWXYZ9876"),
     ("key2", "k2value")].map storageKeyDict))⟩

/-- C6 witness: concrete key listings print the twenty-character
prefixes followed by the marker, and the thirty-character secret is not
printed in full. -/
theorem key_display_redacted_witness :
    (pyStrip "out" ≠ "") ∧
    (20 < ("abcdefghijklmnopqrstuvwxyz0123" : String).data.length) ∧
    ((get_cognitive_keys azEnvCogKeys "res" "grp").run AzState.init =
      (Except.ok (Ret.val (PyVal.dict
        [("key1", PyVal.str "abcdefghijklmnopqrstuvwxyz0123"),
         ("key2", PyVal.str "shrt")])),
       { AzState.init with
          printed := AzState.init.printed ++
            ["\n🔑 API Keys for res:", dashes60,
             "  Key1: " ++ pySliceStr "abcdefghijklmnopqrstuvwxyz0123" 20 ++ "...",
             "  Key2: " ++ pySliceStr "shrt" 20 ++ "..."],
          calls := AzState.init.calls ++
            [buildCmd ["cognitiveservices", "account", "keys", "list",
              "--name", "res", "--resource-group", "grp"] true] })) ∧
    pySliceStr "abcdefghijklmnopqrstuvwxyz0123" 20 ≠ "abcdefghijklmnopqrstuvwxyz0123" := by
  have T := key_display_redacted azEnvCogKeys azEnvStorKeys
    "res" "grp" "sa" "grp2" "abcdefghijklmnopqrstuvwxyz0123" "shrt" "out" "" "out" ""
    [("key1", "ABCDEFGHIJKLMNOPQRSTUVWXYZ9876"), ("key2", "k2value")] AzState.init
    rfl (by decide) rfl rfl (by decide) rfl
  have h30 : 20 < ("abcdefghijklmnopqrstuvwxyz0123" : String).data.length := by decide
  exact ⟨by decide, h30, T.1, (T.2.2 "abcdefghijklmnopqrstuvwxyz0123").2 h30⟩

/-
==============================================================
C7: failure handling at the CLI entry point
==============================================================
-/

/-- Whether a process outcome is one of the failure modes of the spec
taxonomy handled by `run_az_command`: non-zero exit, timeout, or spawn
failure. -/
def failsOutcome : ProcOutcome → Bool
  | ProcOutcome.completed rc _ _ => rc != 0
  | ProcOutcome.timedOut => true
  | ProcOutcome.spawnFailed _ => true

/-- The error message `run_az_command` attaches to a failure mode. -/
def errMsgOf : ProcOutcome → String
  | ProcOutcome.completed _ _ e => e
  | ProcOutcome.timedOut => "Command timed out"
  | ProcOutcome.spawnFailed e => e

/-- Helper: under a failing process outcome, `run_az_command` produces
the normalized failure dict. -/
theorem az_result_of_fail (env : AzEnv) (args : List String) (parse_json : Bool)
    (h : failsOutcome (env.proc (buildCmd args parse_json)) = true) :
    az_result env args parse_json =
      ⟨false, Option.none, some (errMsgOf (env.proc (buildCmd args parse_json)))⟩ := by
  unfold az_result
  cases hp : env.proc (buildCmd args parse_json) with
  | completed rc out err =>
      rw [hp] at h
      simp only [failsOutcome, bne_iff_ne, ne_eq] at h
      simp [h, errMsgOf]
  | timedOut => rfl
  | spawnFailed e => rfl

/-- The hypothesis of the amended C7: every external invocation fails
(non-zero exit, timeout, or spawn error). -/
def AllCallsFail (env : AzEnv) : Prop :=
  ∀ c : List String, failsOutcome (env.proc c) = true

theorem list_subscriptions_ok_of_fail (env : AzEnv) (hF : AllCallsFail env) (s : AzState) :
    ∃ r s2, (list_subscriptions env).run s = (Except.ok r, s2) := by
  have h := az_result_of_fail env ["account", "list"] true (hF _)
  unfold list_subscriptions
  simp [pr, PyM.run_bind, PyM.run_modifyS, PyM.run_pure, run_run_az_command, h]

theorem login_ok_of_fail (env : AzEnv) (hF : AllCallsFail env) (s : AzState) :
    ∃ r s2, (login env).run s = (Except.ok r, s2) := by
  have h := az_result_of_fail env ["login"] false (hF _)
  unfold login
  simp [pr, PyM.run_bind, PyM.run_modifyS, PyM.run_pure, run_run_az_command, h]

theorem get_account_info_ok_of_fail (env : AzEnv) (hF : AllCallsFail env) (s : AzState) :
    ∃ r s2, (get_account_info env).run s = (Except.ok r, s2) := by
  have h := az_result_of_fail env ["account", "show"] true (hF _)
  unfold get_account_info
  simp [pr, PyM.run_bind, PyM.run_modifyS, PyM.run_pure, run_run_az_command, h]

theorem list_resource_groups_ok_of_fail (env : AzEnv) (hF : AllCallsFail env) (s : AzState) :
    ∃ r s2, (list_resource_groups env).run s = (Except.ok r, s2) := by
  have h := az_result_of_fail env ["group", "list"] true (hF _)
  unfold list_resource_groups
  simp [pr, PyM.run_bind, PyM.run_modifyS, PyM.run_pure, run_run_az_command, h]

theorem list_resources_ok_of_fail (env : AzEnv) (hF : AllCallsFail env)
    (rg : Option String) (s : AzState) :
    ∃ r s2, (list_resources env rg).run s = (Except.ok r, s2) := by
  have h := az_result_of_fail env
    (["resource", "list"] ++
      (if strOptTruthy rg then ["--resource-group", rg.getD ""] else [])) true (hF _)
  simp only [List.cons_append, List.nil_append] at h
  unfold list_resources
  simp [pr, PyM.run_bind, PyM.run_modifyS, PyM.run_pure, run_run_az_command, h]

theorem get_cognitive_keys_ok_of_fail (env : AzEnv) (hF : AllCallsFail env)
    (name group : String) (s : AzState) :
    ∃ r s2, (get_cognitive_keys env name group).run s = (Except.ok r, s2) := by
  have h := az_result_of_fail env
    ["cognitiveservices", "account", "keys", "list",
     "--name", name, "--resource-group", group] true (hF _)
  unfold get_cognitive_keys
  simp [pr, PyM.run_bind, PyM.run_modifyS, PyM.run_pure, run_run_az_command, h]

theorem get_storage_keys_ok_of_fail (env : AzEnv) (hF : AllCallsFail env)
    (acct group : String) (s : AzState) :
    ∃ r s2, (get_storage_keys env acct group).run s = (Except.ok r, s2) := by
  have h := az_result_of_fail env
    ["storage", "account", "keys", "list",
     "--account-name", acct, "--resource-group", group] true (hF _)
  unfold get_storage_keys
  simp [pr, PyM.run_bind, PyM.run_modifyS, PyM.run_pure, run_run_az_command, h]

theorem get_keys_ok_of_fail (env : AzEnv) (hF : AllCallsFail env)
    (t name group : String) (s : AzState) :
    ∃ r s2, (get_keys env t name group).run s = (Except.ok r, s2) := by
  unfold get_keys
  by_cases h1 : pyLower t = "cognitive"
  · rw [if_pos h1]
    exact get_cognitive_keys_ok_of_fail env hF name group s
  rw [if_neg h1]
  by_cases h2 : pyLower t = "openai"
  · rw [if_pos h2]
    exact get_cognitive_keys_ok_of_fail env hF name group s
  rw [if_neg h2]
  by_cases h3 : pyLower t = "storage"
  · rw [if_pos h3]
    exact get_storage_keys_ok_of_fail env hF name group s
  rw [if_neg h3]
  exact ⟨_, _, rfl⟩

theorem create_resource_group_ok_of_fail (env : AzEnv) (hF : AllCallsFail env)
    (name location : String) (s : AzState) :
    ∃ r s2, (create_resource_group env name location).run s = (Except.ok r, s2) := by
  have h := az_result_of_fail env
    ["group", "create", "--name", name, "--location", location] true (hF _)
  unfold create_resource_group
  simp [pr, PyM.run_bind, PyM.run_modifyS, PyM.run_pure, run_run_az_command, h]

theorem create_cognitive_service_ok_of_fail (env : AzEnv) (hF : AllCallsFail env)
    (name group kind sku location : String) (s : AzState) :
    ∃ r s2, (create_cognitive_service env name group kind sku location).run s =
      (Except.ok r, s2) := by
  have h := az_result_of_fail env
    ["cognitiveservices", "account", "create",
     "--name", name, "--resource-group", group,
     "--kind", kind, "--sku", sku, "--location", location, "--yes"] true (hF _)
  unfold create_cognitive_service
  simp [pr, PyM.run_bind, PyM.run_modifyS, PyM.run_pure, run_run_az_command, h]

theorem create_storage_account_ok_of_fail (env : AzEnv) (hF : AllCallsFail env)
    (name group sku location : String) (s : AzState) :
    ∃ r s2, (create_storage_account env name group sku location).run s =
      (Except.ok r, s2) := by
  have h := az_result_of_fail env
    ["storage", "account", "create",
     "--name", name, "--resource-group", group,
     "--sku", sku, "--location", location] true (hF _)
  unfold create_storage_account
  simp [pr, PyM.run_bind, PyM.run_modifyS, PyM.run_pure, run_run_az_command, h]

theorem list_openai_deployments_ok_of_fail (env : AzEnv) (hF : AllCallsFail env)
    (name group : String) (s : AzState) :
    ∃ r s2, (list_openai_deployments env name group).run s = (Except.ok r, s2) := by
  have h := az_result_of_fail env
    ["cognitiveservices", "account", "deployment", "list",
     "--name", name, "--resource-group", group] true (hF _)
  unfold list_openai_deployments
  simp [pr, PyM.run_bind, PyM.run_modifyS, PyM.run_pure, run_run_az_command, h]

/-- C7 counterexample: the claim says every failure is reported via
printed text; but running the `list_groups` command against an external
process that exits non-zero spawns a failing call and prints nothing at
all (its handler returns the failure dict silently), so the claim as
stated is false. -/
theorem az_failure_reporting_counterexample :
    ¬ (∀ (env : AzEnv) (argv : List String),
        (∃ c ∈ (((azMain env argv).run AzState.init).2.calls),
          failsOutcome (env.proc c) = true) →
        ((azMain env argv).run AzState.init).2.printed ≠ []) := by
  intro h
  have hmem : ∃ c ∈ (((azMain azEnvExitOne
        ["azure_automation.py", "list_groups"]).run AzState.init).2.calls),
      failsOutcome (azEnvExitOne.proc c) = true := by
    refine ⟨["az", "group", "list", "-o", "json"], ?_, rfl⟩
    show ["az", "group", "list", "-o", "json"] ∈ [["az", "group", "list", "-o", "json"]]
    exact List.mem_singleton.mpr rfl
  exact h azEnvExitOne ["azure_automation.py", "list_groups"] hmem rfl

/-- C7 (amended): for every invocation of the cloud tool's CLI entry
point in a world where every external call fails (non-zero exit,
timeout, or spawn failure), the run raises no uncaught exception and
the process terminates with the default success exit status — failures
are never signalled through the exit code; whatever failure reporting
happens is printed text (several commands, e.g. `list_groups`, print
nothing and return the failure dict silently). -/
theorem az_failures_never_crash (env : AzEnv) (argv : List String)
    (hF : AllCallsFail env) :
    ∃ s2, (azMain env argv).run AzState.init = (Except.ok (), s2) := by
  match argv with
  | [] => exact ⟨_, rfl⟩
  | [_] => exact ⟨_, rfl⟩
  | _ :: cmd :: args =>
    show ∃ s2, (azDispatch env (pyLower cmd) args).run AzState.init = (Except.ok (), s2)
    unfold azDispatch
    by_cases h1 : pyLower cmd = "login"
    · rw [if_pos h1]
      obtain ⟨r, s2, hr⟩ := login_ok_of_fail env hF AzState.init
      rw [PyM.run_bind, hr]
      exact ⟨s2, rfl⟩
    rw [if_neg h1]
    by_cases h2 : pyLower cmd = "account"
    · rw [if_pos h2]
      obtain ⟨r, s2, hr⟩ := get_account_info_ok_of_fail env hF AzState.init
      rw [PyM.run_bind, hr]
      exact ⟨s2, rfl⟩
    rw [if_neg h2]
    by_cases h3 : pyLower cmd = "list_subscriptions"
    · rw [if_pos h3]
      obtain ⟨r, s2, hr⟩ := list_subscriptions_ok_of_fail env hF AzState.init
      rw [PyM.run_bind, hr]
      exact ⟨s2, rfl⟩
    rw [if_neg h3]
    by_cases h4 : pyLower cmd = "list_groups"
    · rw [if_pos h4]
      obtain ⟨r, s2, hr⟩ := list_resource_groups_ok_of_fail env hF AzState.init
      rw [PyM.run_bind, hr]
      exact ⟨s2, rfl⟩
    rw [if_neg h4]
    by_cases h5 : pyLower cmd = "list_resources"
    · rw [if_pos h5]
      obtain ⟨r, s2, hr⟩ := list_resources_ok_of_fail env hF args.head? AzState.init
      rw [PyM.run_bind, hr]
      exact ⟨s2, rfl⟩
    rw [if_neg h5]
    by_cases h6 : pyLower cmd = "get_keys"
    · rw [if_pos h6]
      match args with
      | t :: n :: g :: _ =>
        obtain ⟨r, s2, hr⟩ := get_keys_ok_of_fail env hF t n g AzState.init
        rw [PyM.run_bind, hr]
        exact ⟨s2, rfl⟩
      | [] => exact ⟨_, rfl⟩
      | [_] => exact ⟨_, rfl⟩
      | [_, _] => exact ⟨_, rfl⟩
    rw [if_neg h6]
    by_cases h7 : pyLower cmd = "create_resource_group"
    · rw [if_pos h7]
      match args with
      | n :: rest =>
        obtain ⟨r, s2, hr⟩ := create_resource_group_ok_of_fail env hF n
          (match rest with | l :: _ => l | [] => "eastus") AzState.init
        rw [PyM.run_bind, hr]
        exact ⟨s2, rfl⟩
      | [] => exact ⟨_, rfl⟩
    rw [if_neg h7]
    by_cases h8 : pyLower cmd = "create_cognitive"
    · rw [if_pos h8]
      match args with
      | n :: g :: rest =>
        obtain ⟨r, s2, hr⟩ := create_cognitive_service_ok_of_fail env hF n g
          (match rest with | k :: _ => k | [] => "CognitiveServices") "S0" "eastus" AzState.init
        rw [PyM.run_bind, hr]
        exact ⟨s2, rfl⟩
      | [] => exact ⟨_, rfl⟩
      | [_] => exact ⟨_, rfl⟩
    rw [if_neg h8]
    by_cases h9 : pyLower cmd = "create_storage"
    · rw [if_pos h9]
      match args with
      | n :: g :: _ =>
        obtain ⟨r, s2, hr⟩ := create_storage_account_ok_of_fail env hF n g
          "Standard_LRS" "eastus" AzState.init
        rw [PyM.run_bind, hr]
        exact ⟨s2, rfl⟩
      | [] => exact ⟨_, rfl⟩
      | [_] => exact ⟨_, rfl⟩
    rw [if_neg h9]
    by_cases h10 : pyLower cmd = "create_openai"
    · rw [if_pos h10]
      match args with
      | n :: g :: _ =>
        obtain ⟨r, s2, hr⟩ := create_cognitive_service_ok_of_fail env hF n g
          "OpenAI" "S0" "eastus" AzState.init
        rw [PyM.run_bind]
        rw [show (create_openai_service env n g "eastus").run AzState.init =
          (create_cognitive_service env n g "OpenAI" "S0" "eastus").run AzState.init from rfl]
        rw [hr]
        exact ⟨s2, rfl⟩
      | [] => exact ⟨_, rfl⟩
      | [_] => exact ⟨_, rfl⟩
    rw [if_neg h10]
    by_cases h11 : pyLower cmd = "list_deployments"
    · rw [if_pos h11]
      match args with
      | n :: g :: _ =>
        obtain ⟨r, s2, hr⟩ := list_openai_deployments_ok_of_fail env hF n g AzState.init
        rw [PyM.run_bind, hr]
        exact ⟨s2, rfl⟩
      | [] => exact ⟨_, rfl⟩
      | [_] => exact ⟨_, rfl⟩
    rw [if_neg h11]
    exact ⟨_, rfl⟩

/-- C7 witness: a world where every call exits with code one satisfies
the failing-world hypothesis, and a concrete run finishes normally. -/
theorem az_failures_never_crash_witness :
    AllCallsFail azEnvExitOne ∧
    ∃ s2, (azMain azEnvExitOne ["azure_automation.py", "login"]).run AzState.init =
      (Except.ok (), s2) :=
  ⟨fun _ => rfl,
    az_failures_never_crash azEnvExitOne ["azure_automation.py", "login"] (fun _ => rfl)⟩
